import Mathlib

/-!
# GAIA monitor–classify–broadcast pipeline: a shallow embedding

This file embeds the core of the GAIA repository in Lean 4 and proves (or
refutes) the specification claims about it:

* `src/core/safety/crisis_detector.py` — `CrisisDetector` (severity
  classification from a Z-score scalar, from text patterns, and combined
  with trend analysis; response protocols);
* `src/core/zscore/calculator.py` — `ZScoreCalculator` (the bounded
  coherence score `Z = 12·√(C·F·B)` and its sub-components);
* `src/infrastructure/api/websocket_server.py` — `GAIAWebSocketServer`
  (score injection, the heartbeat loop with its synthetic fallback, and
  the all-channel crisis-alert broadcast).

Python floats are modelled as exact rationals (`ℚ`) where only ordered
comparisons and field arithmetic occur, and as reals (`ℝ`) where `sqrt`
and `exp` appear.  IEEE-754 NaN comparison semantics, which matter for
one claim, are modelled explicitly by an `Option ℚ`-valued scalar whose
`<` is false whenever either side is NaN — exactly the behaviour of the
Python `<` operator on `float('nan')`.
-/

/-- Graduated crisis severity levels, mirroring `CrisisLevel` in
`src/core/safety/crisis_detector.py` (Enum values 0–4). -/
inductive CrisisLevel where
  | NONE
  | LOW
  | MODERATE
  | HIGH
  | CRITICAL
deriving DecidableEq

/-- The numeric `.value` of each `CrisisLevel` enum member. -/
def CrisisLevel.value : CrisisLevel → ℕ
  | .NONE => 0
  | .LOW => 1
  | .MODERATE => 2
  | .HIGH => 3
  | .CRITICAL => 4

/-- Modelled from the spec: `Z_CRISIS_CRITICAL` is imported by
`crisis_detector.py` from `core.constants` but is not defined in
`src/core/constants.py`; its value 1.0 is documented in the
`detect_from_z_score` docstring and in the inline comments of
`crisis_detector.py`, and the test suite asserts the strict ordering of
the four thresholds. -/
def Z_CRISIS_CRITICAL : ℚ := 1

/-- Modelled from the spec: `Z_CRISIS_HIGH` (missing from
`src/core/constants.py`), value 3.0 per the source docstring/comments. -/
def Z_CRISIS_HIGH : ℚ := 3

/-- Modelled from the spec: `Z_CRISIS_MODERATE` (missing from
`src/core/constants.py`), value 6.0 per the source docstring/comments. -/
def Z_CRISIS_MODERATE : ℚ := 6

/-- Modelled from the spec: `Z_CRISIS_STABLE` (missing from
`src/core/constants.py`), value 9.0 per the source docstring/comments. -/
def Z_CRISIS_STABLE : ℚ := 9

/-- `CrisisDetector.detect_from_z_score` for ordinary (non-NaN) scalars:

    Z < 1.0 → CRITICAL; Z < 3.0 → HIGH; Z < 6.0 → MODERATE;
    Z < 9.0 → LOW; Z ≥ 9.0 → NONE. -/
def detect_from_z_score (z_score : ℚ) : CrisisLevel :=
  if z_score < Z_CRISIS_CRITICAL then .CRITICAL
  else if z_score < Z_CRISIS_HIGH then .HIGH
  else if z_score < Z_CRISIS_MODERATE then .MODERATE
  else if z_score < Z_CRISIS_STABLE then .LOW
  else .NONE

/-- A Python float argument: either NaN (`none`) or an ordinary value
(`some q`).  (Infinities are not needed by any claim.) -/
def PyFloat : Type := Option ℚ
deriving DecidableEq

/-- IEEE-754 `<` as Python evaluates it: any comparison against NaN is
false. -/
def PyFloat.flt : PyFloat → ℚ → Bool
  | none, _ => false
  | some q, t => q < t

/-- `CrisisDetector.detect_from_z_score` including IEEE NaN comparison
semantics: each `z_score < threshold` test in the source evaluates to
`False` when `z_score` is NaN. -/
def detect_from_z_score_float (z_score : PyFloat) : CrisisLevel :=
  if z_score.flt Z_CRISIS_CRITICAL then .CRITICAL
  else if z_score.flt Z_CRISIS_HIGH then .HIGH
  else if z_score.flt Z_CRISIS_MODERATE then .MODERATE
  else if z_score.flt Z_CRISIS_STABLE then .LOW
  else .NONE

theorem detect_from_z_score_float_coe (q : ℚ) :
    detect_from_z_score_float (some q) = detect_from_z_score q := by
  simp [detect_from_z_score_float, detect_from_z_score, PyFloat.flt]

/-- **C1.** The claim says a NaN scalar classifies as CRITICAL.  The code
has no NaN guard: every `z_score < threshold` comparison is false for
NaN, so control falls through all four branches and
`detect_from_z_score(float('nan'))` returns `NONE` — the exact
"fail toward silence" outcome the spec forbids. -/
theorem c1_nan_classifies_as_none :
    detect_from_z_score_float (none : PyFloat) = CrisisLevel.NONE := by
  rfl

/-- **C4.** The scalar-to-level classification is antitone in the score:
if `z1 ≤ z2` then the severity assigned to `z1` is ≥ (in the
NONE < LOW < MODERATE < HIGH < CRITICAL order, i.e. on `.value`) the
severity assigned to `z2`. -/
theorem c4_detect_from_z_score_antitone (z1 z2 : ℚ) (h : z1 ≤ z2) :
    (detect_from_z_score z2).value ≤ (detect_from_z_score z1).value := by
  unfold detect_from_z_score Z_CRISIS_CRITICAL Z_CRISIS_HIGH
    Z_CRISIS_MODERATE Z_CRISIS_STABLE
  split_ifs <;> simp [CrisisLevel.value] <;> linarith

/-- Witness for C4 at the concrete pair `z1 = 2 ≤ z2 = 7`:
`detect_from_z_score 7 = LOW` and `detect_from_z_score 2 = HIGH`. -/
theorem c4_witness :
    (2 : ℚ) ≤ 7 ∧
      (detect_from_z_score 7).value ≤ (detect_from_z_score 2).value :=
  ⟨by norm_num, c4_detect_from_z_score_antitone 2 7 (by norm_num)⟩

/-!
## Text pattern matching (`detect_from_text`)

The pattern lists `_CRITICAL_PATTERNS`, `_HIGH_PATTERNS` and
`_MODERATE_PATTERNS` are compiled regular expressions; the regex engine
(`re.search` from the Python standard library, not repository code) is
modelled as an oracle `search : Pat → Bool` telling which of the fixed
patterns match the given text.  The tiering logic around it — critical
tier short-circuits on the first match, the high tier accumulates match
counts, the moderate tier accumulates match counts — is translated
directly from the source.
-/

/-- The nine `_CRITICAL_PATTERNS` of `crisis_detector.py`, in source
order. -/
inductive CriticalPat where
  | suicidal | killSelf | endMyLife | endItAll | wantToDie
  | betterOffDead | noPointLiving | genocide | omnicide
deriving DecidableEq

/-- The seven `_HIGH_PATTERNS` of `crisis_detector.py`, in source
order. -/
inductive HighPat where
  | harmSelf | die | death | intenseHateRageViolence | rage | terror | abuse
deriving DecidableEq

/-- The seven `_MODERATE_PATTERNS` of `crisis_detector.py`, in source
order. -/
inductive ModeratePat where
  | depressed | anxious | hopeless | overwhelmed | stuck | cantGoOn | giveUp
deriving DecidableEq

/-- A compiled pattern from any of the three tiers. -/
inductive Pat where
  | crit (p : CriticalPat)
  | high (p : HighPat)
  | mod (p : ModeratePat)
deriving DecidableEq

def _CRITICAL_PATTERNS : List Pat :=
  [.crit .suicidal, .crit .killSelf, .crit .endMyLife, .crit .endItAll,
   .crit .wantToDie, .crit .betterOffDead, .crit .noPointLiving,
   .crit .genocide, .crit .omnicide]

def _HIGH_PATTERNS : List Pat :=
  [.high .harmSelf, .high .die, .high .death,
   .high .intenseHateRageViolence, .high .rage, .high .terror,
   .high .abuse]

def _MODERATE_PATTERNS : List Pat :=
  [.mod .depressed, .mod .anxious, .mod .hopeless, .mod .overwhelmed,
   .mod .stuck, .mod .cantGoOn, .mod .giveUp]

/-- `CrisisDetector.detect_from_text`.  `search p` models
`p.search(text)`: whether compiled pattern `p` matches the user text.

* critical tier: return `(CRITICAL, [first match])` on the first match;
* high tier: collect all matches; ≥ 2 → HIGH, exactly 1 → MODERATE;
* moderate tier: collect all matches; ≥ 3 → MODERATE, ≥ 1 → LOW;
* otherwise `(NONE, [])`. -/
def detect_from_text (search : Pat → Bool) : CrisisLevel × List Pat :=
  match _CRITICAL_PATTERNS.find? search with
  | some p => (.CRITICAL, [p])
  | none =>
    let high_matches := _HIGH_PATTERNS.filter search
    if high_matches.length ≥ 2 then (.HIGH, high_matches)
    else if high_matches.length = 1 then (.MODERATE, high_matches)
    else
      let mod_matches := _MODERATE_PATTERNS.filter search
      if mod_matches.length ≥ 3 then (.MODERATE, mod_matches)
      else if mod_matches.length ≠ 0 then (.LOW, mod_matches)
      else (.NONE, [])

/-- Trend labels returned by `CrisisDetector._calculate_trend`. -/
inductive Trend where
  | improving | stable | degrading | unknown
deriving DecidableEq

/-- `CrisisDetector._calculate_trend`: with fewer than 3 points (or
`history=None`, both caught by `if not history or len(history) < 3`)
the trend is `unknown`; otherwise the average of the step deltas over
the last 3 points is compared against ±0.3. -/
def _calculate_trend (history : Option (List ℚ)) : Trend :=
  match history with
  | none => .unknown
  | some h =>
    if h.length < 3 then .unknown
    else
      let recent := h.drop (h.length - 3)
      let deltas := List.zipWith (fun a b => a - b) recent.tail recent
      let avg_delta := deltas.sum / (deltas.length : ℚ)
      if avg_delta > 3 / 10 then .improving
      else if avg_delta < -(3 / 10) then .degrading
      else .stable

/-- The report dict returned by `CrisisDetector.detect_comprehensive`. -/
structure ComprehensiveReport where
  level : CrisisLevel
  severity : ℕ
  z_score : ℚ
  z_threshold_breach : Bool
  keyword_matches : List Pat
  trend : Trend
  requires_intervention : Bool
  requires_emergency : Bool
deriving DecidableEq

/-- `CrisisDetector.detect_comprehensive`: combine the Z-score level and
the text level by taking the worst of the two
(`z_level if z_level.value >= text_level.value else text_level`), then
upgrade MODERATE to HIGH when the trend is `degrading`. -/
def detect_comprehensive (z_score : ℚ) (search : Pat → Bool)
    (history : Option (List ℚ)) : ComprehensiveReport :=
  let z_level := detect_from_z_score z_score
  let tm := detect_from_text search
  let text_level := tm.1
  let keyword_matches := tm.2
  let level0 :=
    if text_level.value ≤ z_level.value then z_level else text_level
  let trend := _calculate_trend history
  let level :=
    if trend = .degrading ∧ level0 = .MODERATE then .HIGH else level0
  { level := level
    severity := level.value
    z_score := z_score
    z_threshold_breach := z_level ≠ .NONE
    keyword_matches := keyword_matches
    trend := trend
    requires_intervention := CrisisLevel.MODERATE.value ≤ level.value
    requires_emergency := CrisisLevel.CRITICAL.value ≤ level.value }

/-- The maximum of two severity levels under the total order
NONE < LOW < MODERATE < HIGH < CRITICAL (the order on `.value`). -/
def CrisisLevel.max (a b : CrisisLevel) : CrisisLevel :=
  if a.value < b.value then b else a

/-- A text in which no pattern of any tier matches. -/
def no_crisis_text : Pat → Bool := fun _ => false

/-- A text matching exactly the first critical pattern. -/
def suicidal_text : Pat → Bool := fun p => p = Pat.crit .suicidal

/-- On a pattern-free text, `detect_from_text` reports `(NONE, [])`. -/
theorem detect_from_text_no_crisis :
    detect_from_text no_crisis_text = (.NONE, []) := rfl

/-- On a text matching the first critical pattern, `detect_from_text`
short-circuits with `(CRITICAL, [that pattern])`. -/
theorem detect_from_text_suicidal :
    detect_from_text suicidal_text = (.CRITICAL, [Pat.crit .suicidal]) := rfl

theorem detect_from_z_score_four : detect_from_z_score 4 = .MODERATE := by
  norm_num [detect_from_z_score, Z_CRISIS_CRITICAL, Z_CRISIS_HIGH,
    Z_CRISIS_MODERATE, Z_CRISIS_STABLE]

/-- The source's combination rule
`z_level if z_level.value >= text_level.value else text_level` is the
maximum under the severity order. -/
theorem combine_eq_max (zl tl : CrisisLevel) :
    (if tl.value ≤ zl.value then zl else tl) = CrisisLevel.max zl tl := by
  cases zl <;> cases tl <;> rfl

/-- The exact level reported by `detect_comprehensive`: the maximum of
the scalar-derived and text-derived levels, except that a `degrading`
trend upgrades an exactly-MODERATE maximum to HIGH. -/
theorem detect_comprehensive_level_eq (z : ℚ) (s : Pat → Bool)
    (h : Option (List ℚ)) :
    (detect_comprehensive z s h).level =
      if _calculate_trend h = .degrading ∧
          CrisisLevel.max (detect_from_z_score z) (detect_from_text s).1
            = .MODERATE
        then .HIGH
        else CrisisLevel.max (detect_from_z_score z)
          (detect_from_text s).1 := by
  simp only [detect_comprehensive, combine_eq_max]

/-- **C3, counterexample.**  The claim "for every score, text, and
history the reported level is the maximum of the scalar-derived and
text-derived levels" fails at score 4, a pattern-free text, and history
[9, 7, 5]: the trend is `degrading`, so the MODERATE maximum is
escalated and the report says HIGH. -/
theorem c3_counterexample :
    ¬ ((detect_comprehensive 4 no_crisis_text (some [9, 7, 5])).level =
        CrisisLevel.max (detect_from_z_score 4)
          (detect_from_text no_crisis_text).1) := by
  rw [detect_comprehensive_level_eq, detect_from_z_score_four,
    detect_from_text_no_crisis]
  have ht : _calculate_trend (some [9, 7, 5]) = .degrading := by
    norm_num [_calculate_trend]
  rw [ht]
  simp [CrisisLevel.max, CrisisLevel.value]

/-- **C3, amended.**  `detect_comprehensive` reports the maximum (under
NONE < LOW < MODERATE < HIGH < CRITICAL) of the scalar-derived and
text-derived levels, *except* that when the history's trend is
`degrading` and that maximum is exactly MODERATE the report says HIGH.
In particular score 0.2 with a pattern-free text yields CRITICAL from
the scalar alone, and score 9.0 with a critical text pattern yields
CRITICAL from the text alone. -/
theorem c3_level_is_max_up_to_trend :
    (∀ (z : ℚ) (s : Pat → Bool) (h : Option (List ℚ)),
        (detect_comprehensive z s h).level =
          if _calculate_trend h = .degrading ∧
              CrisisLevel.max (detect_from_z_score z)
                (detect_from_text s).1 = .MODERATE
            then .HIGH
            else CrisisLevel.max (detect_from_z_score z)
              (detect_from_text s).1)
      ∧ (detect_comprehensive (2/10) no_crisis_text none).level
          = .CRITICAL
      ∧ (detect_comprehensive 9 suicidal_text none).level = .CRITICAL := by
  refine ⟨detect_comprehensive_level_eq, ?_, ?_⟩
  · rw [detect_comprehensive_level_eq, detect_from_text_no_crisis]
    have hz : detect_from_z_score (2/10) = .CRITICAL := by
      norm_num [detect_from_z_score, Z_CRISIS_CRITICAL]
    rw [hz]
    simp [_calculate_trend, CrisisLevel.max, CrisisLevel.value]
  · rw [detect_comprehensive_level_eq, detect_from_text_suicidal]
    have hz : detect_from_z_score 9 = .NONE := by
      norm_num [detect_from_z_score, Z_CRISIS_CRITICAL, Z_CRISIS_HIGH,
        Z_CRISIS_MODERATE, Z_CRISIS_STABLE]
    rw [hz]
    simp [_calculate_trend, CrisisLevel.max, CrisisLevel.value]

/-- **C5, counterexample.**  A strictly declining history of 3 scores
need not escalate MODERATE to HIGH: with history [3.0, 2.9, 2.8] the
average step delta is −0.1, which is not below the −0.3 trend
threshold, so the trend is `stable` and the combined MODERATE level is
reported unchanged — not HIGH as the claim requires. -/
theorem c5_counterexample :
    ((28:ℚ)/10 < 29/10 ∧ (29:ℚ)/10 < 3) ∧
      CrisisLevel.max (detect_from_z_score 4)
        (detect_from_text no_crisis_text).1 = .MODERATE ∧
      (detect_comprehensive 4 no_crisis_text
          (some [3, 29/10, 28/10])).level ≠ .HIGH := by
  have ht : _calculate_trend (some [3, 29/10, 28/10]) = .stable := by
    norm_num [_calculate_trend]
  refine ⟨by norm_num, ?_, ?_⟩
  · rw [detect_from_z_score_four, detect_from_text_no_crisis]; rfl
  · rw [detect_comprehensive_level_eq, detect_from_z_score_four,
      detect_from_text_no_crisis, ht]
    simp [CrisisLevel.max, CrisisLevel.value]

/-- **C5, amended.**  If the history's computed trend is `degrading`
(average step delta over the last 3 points below −0.3) and the combined
(max of scalar and text) level before trend adjustment is exactly
MODERATE, then `detect_comprehensive` reports HIGH. -/
theorem c5_degrading_trend_escalates (z : ℚ) (s : Pat → Bool) (h : List ℚ)
    (hd : _calculate_trend (some h) = .degrading)
    (hm : CrisisLevel.max (detect_from_z_score z) (detect_from_text s).1
        = .MODERATE) :
    (detect_comprehensive z s (some h)).level = .HIGH := by
  rw [detect_comprehensive_level_eq, hd, hm]
  simp

/-- Witness for C5 at score 4, a pattern-free text, and the strictly
declining history [9, 7, 5] (average step delta −2 < −0.3). -/
theorem c5_witness :
    _calculate_trend (some [9, 7, 5]) = .degrading ∧
      CrisisLevel.max (detect_from_z_score 4)
        (detect_from_text no_crisis_text).1 = .MODERATE ∧
      (detect_comprehensive 4 no_crisis_text (some [9, 7, 5])).level
        = .HIGH := by
  have ht : _calculate_trend (some [9, 7, 5]) = .degrading := by
    norm_num [_calculate_trend]
  have hm : CrisisLevel.max (detect_from_z_score 4)
      (detect_from_text no_crisis_text).1 = .MODERATE := by
    rw [detect_from_z_score_four, detect_from_text_no_crisis]; rfl
  exact ⟨ht, hm, c5_degrading_trend_escalates 4 no_crisis_text _ ht hm⟩

/-!
## Response protocols (`get_response_protocol`)

The `_PROTOCOLS` dict maps every `CrisisLevel` to a protocol dict.  Keys
that are present only for some levels (`suggestion`, `require_consent`,
`resources`, `alert`) are modelled as `Option`-valued fields, `none`
meaning the key is absent from that level's dict.
-/

/-- One entry of the `_PROTOCOLS` table in
`CrisisDetector.get_response_protocol`. -/
structure ResponseProtocol where
  action : String
  avatar_mode : String
  access_level : String
  suggestion : Option String
  require_consent : Option Bool
  resources : Option (List String)
  alert : Option Bool
deriving DecidableEq

/-- `CrisisDetector.get_response_protocol`: the pure lookup into
`_PROTOCOLS`.  The Python `.get(level, _PROTOCOLS[NONE])` default is
unreachable because all five enum members are keys; the match below is
total over `CrisisLevel` for the same reason. -/
def get_response_protocol : CrisisLevel → ResponseProtocol
  | .NONE =>
    { action := "continue", avatar_mode := "companion"
      access_level := "full", suggestion := none, require_consent := none
      resources := none, alert := none }
  | .LOW =>
    { action := "monitor", avatar_mode := "supportive"
      access_level := "full", suggestion := some "gentle_check_in"
      require_consent := none, resources := none, alert := none }
  | .MODERATE =>
    { action := "intervene", avatar_mode := "counselor"
      access_level := "restricted", suggestion := none
      require_consent := some true
      resources := some ["self_care", "grounding"], alert := none }
  | .HIGH =>
    { action := "urgent_support", avatar_mode := "crisis_counselor"
      access_level := "minimal", suggestion := none
      require_consent := some true
      resources := some ["hotline", "emergency_contacts", "safety_plan"]
      alert := none }
  | .CRITICAL =>
    { action := "emergency", avatar_mode := "emergency_protocol"
      access_level := "locked", suggestion := none
      require_consent := some false
      resources := some ["988", "emergency_services", "crisis_text_line"]
      alert := some true }

/-!
## The Z-score calculator (`src/core/zscore/calculator.py`)

Scalars here are reals: the formula uses `sqrt` and `exp`.  `_round`
(`round(float(value), 6)`) is modelled as rounding to 6 decimal places;
Python rounds ties to even while Mathlib's `round` rounds ties up — the
two differ only at exact half-microunit ties, which no claim touches.
The numpy/scipy library internals (histogram + entropy, correlation,
divergence mean) are not repository code and are modelled as oracle
parameters; the repository's own guards, clipping and rounding around
them are translated directly.
-/

/-- `_round(value, 6)` from `calculator.py` (`_PRECISION = 6`). -/
noncomputable def roundTo6 (x : ℝ) : ℝ :=
  ((round (x * 10 ^ 6) : ℤ) : ℝ) / 10 ^ 6

/-- `np.clip(x, lo, hi)`. -/
def clip (x lo hi : ℝ) : ℝ := min (max x lo) hi

theorem round_le_round {x y : ℝ} (h : x ≤ y) : round x ≤ round y := by
  rw [round_eq, round_eq]
  exact Int.floor_le_floor (by linarith)

theorem roundTo6_bounds {x : ℝ} {m : ℤ} (h0 : 0 ≤ x) (h1 : x ≤ m) :
    0 ≤ roundTo6 x ∧ roundTo6 x ≤ m := by
  have hl : (0 : ℤ) ≤ round (x * 10 ^ 6) := by
    have h' := round_le_round (x := (0 : ℝ)) (y := x * 10 ^ 6)
      (by positivity)
    simpa using h'
  have hr : round (x * 10 ^ 6) ≤ m * 10 ^ 6 := by
    have hle : x * 10 ^ 6 ≤ ((m * 10 ^ 6 : ℤ) : ℝ) := by
      push_cast
      nlinarith
    have h' := round_le_round hle
    rwa [round_intCast] at h'
  have hcl : (0 : ℝ) ≤ ((round (x * 10 ^ 6) : ℤ) : ℝ) := by exact_mod_cast hl
  have hcr : ((round (x * 10 ^ 6) : ℤ) : ℝ) ≤ (m : ℝ) * 10 ^ 6 := by
    exact_mod_cast hr
  constructor
  · exact div_nonneg hcl (by positivity)
  · rw [roundTo6, div_le_iff₀ (by positivity : (0:ℝ) < 10 ^ 6)]
    linarith

theorem roundTo6_zero : roundTo6 0 = 0 := by
  simp [roundTo6]

theorem roundTo6_one : roundTo6 1 = 1 := by
  rw [roundTo6]
  norm_num

theorem clip_mem (x lo hi : ℝ) (h : lo ≤ hi) :
    lo ≤ clip x lo hi ∧ clip x lo hi ≤ hi :=
  ⟨le_min (le_max_right x lo) h, min_le_right _ _⟩

/-- The composite `_round(np.clip(·, 0, m))` stays within `[0, m]`. -/
theorem roundTo6_clip_nonneg_le (x : ℝ) (m : ℤ) (hm : (0:ℝ) ≤ (m : ℝ)) :
    0 ≤ roundTo6 (clip x 0 (m : ℝ)) ∧ roundTo6 (clip x 0 (m : ℝ)) ≤ m := by
  have h := clip_mem x 0 (m : ℝ) hm
  exact roundTo6_bounds h.1 h.2

/-- Modelled from the spec: `FACTOR_13_CONSTANT` is imported by
`calculator.py` from `core.constants` but not defined in
`src/core/constants.py`; value 12.0 per the source comment and the test
`test_factor_13_constant`. -/
def FACTOR_13_CONSTANT : ℝ := 12

/-- `ZScoreCalculator.calculate_z_score`:
`z = 12 * sqrt(max(0, c*f*b))`, clipped to `[0, 12]` and rounded to 6
decimal places. -/
noncomputable def calculate_z_score (coherence fidelity balance : ℝ) : ℝ :=
  let product := coherence * fidelity * balance
  let z := FACTOR_13_CONSTANT * Real.sqrt (max 0 product)
  roundTo6 (clip z 0 FACTOR_13_CONSTANT)

/-- **C2.**  Joint necessity and boundedness of the primary scalar: on
`[0,1]³`, a zero sub-component forces `calculate_z_score` to exactly 0,
and the result always lies in `[0, 12]`. -/
theorem c2_zero_component_and_bounds (c f b : ℝ)
    (hc : 0 ≤ c ∧ c ≤ 1) (hf : 0 ≤ f ∧ f ≤ 1) (hb : 0 ≤ b ∧ b ≤ 1) :
    ((c = 0 ∨ f = 0 ∨ b = 0) → calculate_z_score c f b = 0) ∧
      0 ≤ calculate_z_score c f b ∧ calculate_z_score c f b ≤ 12 := by
  constructor
  · intro h0
    have hp : c * f * b = 0 := by
      rcases h0 with h | h | h <;> rw [h] <;> ring
    simp only [calculate_z_score, hp, max_self, Real.sqrt_zero, mul_zero]
    have hc0 : clip 0 0 FACTOR_13_CONSTANT = 0 := by
      norm_num [clip, FACTOR_13_CONSTANT]
    rw [hc0, roundTo6_zero]
  · simp only [calculate_z_score]
    have h12 : ((12 : ℤ) : ℝ) = FACTOR_13_CONSTANT := by
      norm_num [FACTOR_13_CONSTANT]
    have h := roundTo6_clip_nonneg_le
      (FACTOR_13_CONSTANT * Real.sqrt (max 0 (c * f * b))) 12 (by norm_num)
    rw [h12] at h
    exact ⟨h.1, by exact_mod_cast h.2⟩

/-- Witness for C2 at the triple `(0, 1/2, 1)`: the zero coherence
component collapses the score to exactly 0, which is within [0, 12]. -/
theorem c2_witness :
    ((0:ℝ) ≤ 0 ∧ (0:ℝ) ≤ 1) ∧ ((0:ℝ) ≤ 1/2 ∧ (1:ℝ)/2 ≤ 1) ∧
      ((0:ℝ) ≤ 1 ∧ (1:ℝ) ≤ 1) ∧ calculate_z_score 0 (1/2) 1 = 0 := by
  refine ⟨⟨le_rfl, by norm_num⟩, ⟨by norm_num, by norm_num⟩,
    ⟨by norm_num, le_rfl⟩, ?_⟩
  exact (c2_zero_component_and_bounds 0 (1/2) 1 ⟨le_rfl, by norm_num⟩
    ⟨by norm_num, by norm_num⟩ ⟨by norm_num, le_rfl⟩).1 (Or.inl rfl)

/-- `ZScoreCalculator.calculate_balance`: the Gottman 5:1 ratio measure.
For `negative ≤ 0` the ratio is never computed and the function returns
1.0 (if `positive > 0`) or 0.5; otherwise the ratio ramps linearly up
to 5:1 and decays exponentially above it, clipped to `[0,1]` and
rounded. -/
noncomputable def calculate_balance (positive negative : ℝ) : ℝ :=
  if negative ≤ 0 then (if 0 < positive then 1 else 1/2)
  else
    let ratio := positive / negative
    let balance :=
      if ratio ≤ 5 then ratio / 5 else Real.exp (-(ratio - 5) / 5)
    roundTo6 (clip balance 0 1)

/-- **C10.**  `calculate_balance` guards the division: whenever
`negative ≤ 0` it returns 1 (for `positive > 0`) or 1/2 without forming
the ratio, and its result is always within `[0, 1]`. -/
theorem c10_balance_division_guard (positive negative : ℝ) :
    (negative ≤ 0 →
        calculate_balance positive negative =
          if 0 < positive then 1 else 1/2) ∧
      0 ≤ calculate_balance positive negative ∧
        calculate_balance positive negative ≤ 1 := by
  by_cases hneg : negative ≤ 0
  · refine ⟨fun _ => by rw [calculate_balance, if_pos hneg], ?_⟩
    rw [calculate_balance, if_pos hneg]
    by_cases hpos : 0 < positive
    · rw [if_pos hpos]; norm_num
    · rw [if_neg hpos]; norm_num
  · refine ⟨fun h => absurd h hneg, ?_⟩
    rw [calculate_balance, if_neg hneg]
    have h1 : ((1 : ℤ) : ℝ) = 1 := by norm_num
    have h := roundTo6_clip_nonneg_le
      (if positive / negative ≤ 5 then positive / negative / 5
        else Real.exp (-(positive / negative - 5) / 5)) 1 (by norm_num)
    rw [h1] at h
    exact ⟨h.1, by exact_mod_cast h.2⟩

/-- Witness for C10 at `(positive, negative) = (1, 0)`: the guard fires
and the result is exactly 1, inside `[0, 1]`. -/
theorem c10_witness :
    (0:ℝ) ≤ 0 ∧ calculate_balance 1 0 = 1 ∧
      0 ≤ calculate_balance 1 0 ∧ calculate_balance 1 0 ≤ 1 := by
  have h := c10_balance_division_guard 1 0
  refine ⟨le_rfl, ?_, h.2⟩
  rw [h.1 le_rfl, if_pos (by norm_num : (0:ℝ) < 1)]

/-- Modelled from the spec: stage boundary `Z_CRISIS_UPPER` is imported
by `calculator.py` from `core.constants` but not defined in
`src/core/constants.py`; value 2.0 per the comment in
`bridge/alchemy/transitions.py` and the equally-spaced stage ladder of
`constants.py` (`Z_CRISIS = 2.0`). -/
def Z_CRISIS_UPPER : ℝ := 2

/-- Modelled from the spec: `Z_NIGREDO_UPPER` (missing constant),
value 4.0 per the stage ladder. -/
def Z_NIGREDO_UPPER : ℝ := 4

/-- Modelled from the spec: `Z_ALBEDO_UPPER` (missing constant),
value 6.0 per the stage ladder. -/
def Z_ALBEDO_UPPER : ℝ := 6

/-- Modelled from the spec: `Z_RUBEDO_UPPER` (missing constant),
value 8.0 per the stage ladder. -/
def Z_RUBEDO_UPPER : ℝ := 8

/-- Modelled from the spec: `Z_VIRIDITAS_UPPER` (missing constant),
value 10.0 per the stage ladder. -/
def Z_VIRIDITAS_UPPER : ℝ := 10

/-- Alchemical stage labels returned by `ZScoreCalculator._classify`. -/
inductive Stage where
  | crisis | nigredo | albedo | rubedo | viriditas | transcendent
deriving DecidableEq

/-- Operational state labels returned by `ZScoreCalculator._classify`. -/
inductive OperationalState where
  | CRISIS | CHAOS | TRANSITIONAL | STABLE | COHERENT
deriving DecidableEq

/-- `ZScoreCalculator._classify` (the hex colour, a pure lookup of the
stage in the missing `STAGE_COLORS` table, is determined by the stage
and is omitted). -/
noncomputable def _classify (z_score lyapunov : ℝ) :
    OperationalState × Stage :=
  let stage :=
    if z_score < Z_CRISIS_UPPER then Stage.crisis
    else if z_score < Z_NIGREDO_UPPER then .nigredo
    else if z_score < Z_ALBEDO_UPPER then .albedo
    else if z_score < Z_RUBEDO_UPPER then .rubedo
    else if z_score < Z_VIRIDITAS_UPPER then .viriditas
    else .transcendent
  let state :=
    if z_score < Z_CRISIS_UPPER then
      (if 0 < lyapunov then OperationalState.CRISIS else .CHAOS)
    else if z_score < Z_ALBEDO_UPPER then .TRANSITIONAL
    else if z_score < Z_VIRIDITAS_UPPER then .STABLE
    else .COHERENT
  (state, stage)

/-- `ZScoreCalculator.calculate_coherence`.  `entropyPart` is the
numpy/scipy histogram-entropy computation
(`1 - h/max_h if max_h > 0 else 0`) — library code, supplied as an
oracle.  The repository's empty-input guard (`None` or empty → 0.5) and
the final clip-and-round are translated from the source. -/
noncomputable def calculate_coherence (entropyPart : List ℝ → ℝ)
    (time_series : Option (List ℝ)) : ℝ :=
  match time_series with
  | none => 1/2
  | some l =>
    if l.length = 0 then 1/2
    else roundTo6 (clip (entropyPart l) 0 1)

/-- `ZScoreCalculator.calculate_fidelity` with `reference=None` (as
`analyze_system` calls it).  `corrPart` is the numpy normalised
correlation of the signal with its own reflection — library code,
supplied as an oracle; the `[−1,1] → [0,1]` affine map, the empty-input
guard and the clip-and-round are the repository's. -/
noncomputable def calculate_fidelity (corrPart : List ℝ → ℝ)
    (time_series : Option (List ℝ)) : ℝ :=
  match time_series with
  | none => 1/2
  | some l =>
    if l.length = 0 then 1/2
    else roundTo6 (clip ((corrPart l + 1) / 2) 0 1)

/-- `ZScoreCalculator.calculate_lyapunov`.  `divPart` is the mean of the
log divergence ratios — supplied as an oracle; the short-input guard
(< 10 samples → 0.0) and the rounding are the repository's. -/
noncomputable def calculate_lyapunov (divPart : List ℝ → ℝ)
    (time_series : Option (List ℝ)) : ℝ :=
  match time_series with
  | none => 0
  | some l =>
    if l.length < 10 then 0
    else roundTo6 (divPart l)

/-- The dict returned by `ZScoreCalculator.analyze_system` (the colour
field is determined by `stage`, see `_classify`). -/
structure AnalysisResult where
  z_score : ℝ
  coherence : ℝ
  fidelity : ℝ
  balance : ℝ
  lyapunov : ℝ
  state : OperationalState
  stage : Stage

/-- `ZScoreCalculator.analyze_system`: the complete analysis pipeline.
`positive` and `negative` default to 1.0 and 0.2 at the Python call
site; they are passed explicitly here. -/
noncomputable def analyze_system (entropyPart corrPart divPart : List ℝ → ℝ)
    (time_series : Option (List ℝ)) (positive negative : ℝ) :
    AnalysisResult :=
  let coherence := calculate_coherence entropyPart time_series
  let fidelity := calculate_fidelity corrPart time_series
  let balance := calculate_balance positive negative
  let lyapunov := calculate_lyapunov divPart time_series
  let z_score := calculate_z_score coherence fidelity balance
  let sc := _classify z_score lyapunov
  { z_score := z_score, coherence := coherence, fidelity := fidelity
    balance := balance, lyapunov := lyapunov
    state := sc.1, stage := sc.2 }

/-- `calculate_balance` at the `analyze_system` default weights
`positive=1.0, negative=0.2`: the ratio is exactly the 5:1 optimum, so
balance is 1 — not the neutral 0.5. -/
theorem calculate_balance_at_defaults : calculate_balance 1 (1/5) = 1 := by
  rw [calculate_balance, if_neg (by norm_num : ¬ (1:ℝ)/5 ≤ 0)]
  have hr : (1 : ℝ) / (1/5) = 5 := by norm_num
  simp only [hr, if_pos (by norm_num : (5:ℝ) ≤ 5)]
  have hc : clip (5 / 5 : ℝ) 0 1 = 1 := by norm_num [clip]
  rw [hc, roundTo6_one]

/-- **C9, counterexample.**  On an empty sample sequence with the
documented default weights (`positive=1.0, negative=0.2`),
`analyze_system` returns coherence = fidelity = 0.5 but balance = 1:
the balance sub-component never looks at the samples and is not the
neutral 0.5 the claim requires. -/
theorem c9_counterexample :
    (analyze_system (fun _ => 0) (fun _ => 0) (fun _ => 0)
        (some []) 1 (1/5)).coherence = 1/2 ∧
      (analyze_system (fun _ => 0) (fun _ => 0) (fun _ => 0)
          (some []) 1 (1/5)).fidelity = 1/2 ∧
      (analyze_system (fun _ => 0) (fun _ => 0) (fun _ => 0)
          (some []) 1 (1/5)).balance = 1 ∧
      (1 : ℝ) ≠ 1/2 := by
  refine ⟨rfl, rfl, ?_, by norm_num⟩
  show calculate_balance 1 (1/5) = 1
  exact calculate_balance_at_defaults

/-- **C9, amended.**  On an empty or missing sample sequence
`analyze_system` returns the neutral 0.5 for the coherence (Order) and
fidelity sub-components without raising (it is a total function), while
the balance sub-component is computed from the positive/negative
weights alone — equal to 1, not 0.5, at the documented defaults
`positive=1.0, negative=0.2` (a 5:1 ratio). -/
theorem c9_empty_input_neutral (entropyPart corrPart divPart : List ℝ → ℝ)
    (positive negative : ℝ) (time_series : Option (List ℝ))
    (h : time_series = none ∨ time_series = some []) :
    (analyze_system entropyPart corrPart divPart time_series
        positive negative).coherence = 1/2 ∧
      (analyze_system entropyPart corrPart divPart time_series
          positive negative).fidelity = 1/2 ∧
      (analyze_system entropyPart corrPart divPart time_series
          positive negative).balance = calculate_balance positive negative ∧
      calculate_balance 1 (1/5) = 1 := by
  rcases h with h | h <;> subst h <;>
    exact ⟨rfl, rfl, rfl, calculate_balance_at_defaults⟩

/-- Witness for C9 (amended) at the empty sequence and default
weights. -/
theorem c9_witness :
    (some ([] : List ℝ) = none ∨ some ([] : List ℝ) = some []) ∧
      (analyze_system (fun _ => 1) (fun _ => 1) (fun _ => 1)
          (some []) 1 (1/5)).coherence = 1/2 ∧
      (analyze_system (fun _ => 1) (fun _ => 1) (fun _ => 1)
          (some []) 1 (1/5)).fidelity = 1/2 := by
  have h := c9_empty_input_neutral (fun _ => 1) (fun _ => 1) (fun _ => 1)
    1 (1/5) (some []) (Or.inr rfl)
  exact ⟨Or.inr rfl, h.1, h.2.1⟩

/-- **C6.**  The protocol mapping is total over the five levels (the
lookup is a total function by construction), and consent may be
overridden — the `require_consent` key is present and `False` — exactly
at CRITICAL: every other level either sets `require_consent = True`
(MODERATE, HIGH) or omits the key entirely (NONE, LOW), so no other
level's protocol permits the override. -/
theorem c6_consent_override_iff_critical (l : CrisisLevel) :
    (get_response_protocol l).require_consent = some false ↔
      l = .CRITICAL := by
  cases l <;> simp [get_response_protocol]

/-!
## The WebSocket server (`src/infrastructure/api/websocket_server.py`)

### Heartbeat provenance (C7)

`GAIAWebSocketServer` holds the shared score cell
(`current_z_score`, `last_real_z`), the deployment mode `env` (set at
construction, never mutated), and the `running` flag.  The operations
that touch this state are `inject_z_score` (called directly and from
`_handle_core_message`), one iteration of the `_heartbeat_loop` body
(`tick`, with the `random.uniform(-0.2, 0.2)` draw supplied as a
parameter), and `stop`.  A trace is a list of these events.
-/

/-- The deployment mode (`env` constructor argument). -/
inductive Env where
  | development | production
deriving DecidableEq

/-- The score-cell state of `GAIAWebSocketServer`. -/
structure ServerState where
  env : Env
  current_z_score : ℚ
  last_real_z : Option ℚ
  running : Bool
deriving DecidableEq

/-- `GAIAWebSocketServer.inject_z_score`: overwrite the cell and set the
real-provenance marker (which no operation ever clears). -/
def inject_z_score (s : ServerState) (z : ℚ) : ServerState :=
  { s with last_real_z := some z, current_z_score := z }

/-- One heartbeat payload (`type=heartbeat`): the broadcast score and
its `synthetic` provenance flag. -/
structure Heartbeat where
  z_score : ℚ
  synthetic : Bool
deriving DecidableEq

/-- One iteration of the `_heartbeat_loop` body.  `rand` models the
`random.uniform(-0.2, 0.2)` draw of the synthetic random walk.  If a
real score was ever injected it is re-broadcast with `synthetic=false`;
otherwise, in development mode only, a clamped random walk is broadcast
with `synthetic=true`; otherwise the tick emits nothing.  The loop only
runs while `running` is set. -/
def heartbeat_tick (s : ServerState) (rand : ℚ) :
    ServerState × Option Heartbeat :=
  if s.running = false then (s, none)
  else
    match s.last_real_z with
    | some z =>
      ({ s with current_z_score := z }, some ⟨z, false⟩)
    | none =>
      if s.env = .development then
        let z := max 0 (min 12 (s.current_z_score + rand))
        ({ s with current_z_score := z }, some ⟨z, true⟩)
      else (s, none)

/-- Events touching the score cell. -/
inductive Event where
  | inject (z : ℚ)
  | tick (rand : ℚ)
  | stop
deriving DecidableEq

/-- One step of the server, returning the heartbeat emitted by that
step, if any. -/
def step (s : ServerState) : Event → ServerState × Option Heartbeat
  | .inject z => (inject_z_score s z, none)
  | .tick rand => heartbeat_tick s rand
  | .stop => ({ s with running := false }, none)

/-- Run a trace of events, collecting all emitted heartbeats in
order. -/
def run (s : ServerState) : List Event → ServerState × List Heartbeat
  | [] => (s, [])
  | e :: es =>
    let r := step s e
    let rest := run r.1 es
    (rest.1, r.2.toList ++ rest.2)

theorem step_preserves_real {s : ServerState} (e : Event)
    (h : s.last_real_z.isSome) : ((step s e).1).last_real_z.isSome := by
  obtain ⟨z, hz⟩ := Option.isSome_iff_exists.mp h
  cases e with
  | inject z' => simp [step, inject_z_score]
  | tick rand =>
    simp only [step, heartbeat_tick, hz]
    split
    · simpa using h
    · simp
  | stop => simpa [step] using h

theorem step_no_synthetic {s : ServerState} (e : Event)
    (h : s.last_real_z.isSome) :
    ∀ hb ∈ ((step s e).2).toList, hb.synthetic = false := by
  obtain ⟨z, hz⟩ := Option.isSome_iff_exists.mp h
  cases e with
  | inject z' => simp [step]
  | tick rand =>
    simp only [step, heartbeat_tick, hz]
    split
    · simp
    · simp
  | stop => simp [step]

theorem run_no_synthetic (events : List Event) :
    ∀ s : ServerState, s.last_real_z.isSome →
      (∀ hb ∈ (run s events).2, hb.synthetic = false) ∧
        ((run s events).1).last_real_z.isSome := by
  induction events with
  | nil => intro s hs; exact ⟨by simp [run], hs⟩
  | cons e es ih =>
    intro s hs
    have h1 := step_preserves_real e hs
    have h2 := step_no_synthetic e hs
    have h3 := ih ((step s e).1) h1
    refine ⟨?_, h3.2⟩
    intro hb hm
    simp only [run, List.mem_append] at hm
    rcases hm with hm | hm
    · exact h2 hb hm
    · exact h3.1 hb hm

theorem run_append (s : ServerState) (l1 l2 : List Event) :
    run s (l1 ++ l2) =
      ((run (run s l1).1 l2).1, (run s l1).2 ++ (run (run s l1).1 l2).2) := by
  induction l1 generalizing s with
  | nil => simp [run]
  | cons e es ih => simp [run, ih, List.append_assoc]

/-- **C7.**  Once `inject_z_score` has been called, no later heartbeat
tick ever emits `synthetic=true`, whatever the deployment mode and
whatever else happens afterwards: every heartbeat emitted after the
injection carries `synthetic=false`. -/
theorem c7_no_synthetic_after_injection (s0 : ServerState)
    (pre post : List Event) (z : ℚ) :
    ∀ hb ∈ (run (run s0 (pre ++ [Event.inject z])).1 post).2,
      hb.synthetic = false := by
  have hsome : ((run s0 (pre ++ [Event.inject z])).1).last_real_z.isSome := by
    rw [run_append]
    have : ((run (run s0 pre).1 [Event.inject z]).1).last_real_z
        = some z := by
      simp [run, step, inject_z_score]
    simp [this]
  exact (run_no_synthetic post _ hsome).1

/-- Witness for C7: in development mode, after injecting the real score
5, the next tick re-broadcasts 5 with `synthetic=false`. -/
theorem c7_witness :
    Heartbeat.mk 5 false ∈
        (run (run ⟨Env.development, 6, none, true⟩
            ([] ++ [Event.inject 5])).1 [Event.tick 0]).2 ∧
      (Heartbeat.mk 5 false).synthetic = false := by
  have hm : Heartbeat.mk 5 false ∈
      (run (run ⟨Env.development, 6, none, true⟩
          ([] ++ [Event.inject 5])).1 [Event.tick 0]).2 := by
    simp [run, step, inject_z_score, heartbeat_tick]
  exact ⟨hm, c7_no_synthetic_after_injection ⟨Env.development, 6, none, true⟩
    [] [Event.tick 0] 5 _ hm⟩

/-!
### Crisis-alert broadcast (C8)

Connected clients are modelled by identifiers; each of the three plane
registries (`core_clients`, `bridge_clients`, `overlay_clients`) is a
list of them.  `_broadcast_to` attempts a send to every member of a
registry and afterwards removes those whose send failed (modelled by a
`fails` oracle standing for `ConnectionClosed` being raised).
-/

/-- The three subscriber registries of `GAIAWebSocketServer`. -/
structure Registries where
  core_clients : List ℕ
  bridge_clients : List ℕ
  overlay_clients : List ℕ
deriving DecidableEq

/-- The `crisis_alert` message payload built once (one `_encode` call)
per `_broadcast_crisis_alert` invocation. -/
structure AlertPayload where
  level : CrisisLevel
  severity : ℕ
  requires_emergency : Bool
  resources : List String
  timestamp : ℕ
deriving DecidableEq

/-- The payload `_broadcast_crisis_alert` encodes from the crisis
report. -/
def crisis_alert_payload (report : ComprehensiveReport) (now : ℕ) :
    AlertPayload :=
  { level := report.level
    severity := report.severity
    requires_emergency := report.requires_emergency
    resources :=
      ["Call or text 988 (Suicide and Crisis Lifeline)",
       "Text HELLO to 741741 (Crisis Text Line)"]
    timestamp := now }

/-- One attempted delivery of a payload to a client. -/
structure SendAttempt where
  client : ℕ
  payload : AlertPayload
deriving DecidableEq

/-- `GAIAWebSocketServer._broadcast_to`: attempt a send to every client
in the registry; clients whose send raised `ConnectionClosed` (the
`fails` oracle) are removed from the registry afterwards, and the
failure never escapes the loop. -/
def _broadcast_to (clients : List ℕ) (fails : ℕ → Bool)
    (payload : AlertPayload) : List SendAttempt × List ℕ :=
  (clients.map (fun c => ⟨c, payload⟩),
   clients.filter (fun c => ¬ fails c))

/-- `GAIAWebSocketServer._broadcast_crisis_alert`: encode the payload
once, then broadcast it to the core, bridge and overlay registries in
turn, all within the one (synchronous) invocation.  The function does
not depend on which connection's message triggered it. -/
def _broadcast_crisis_alert (r : Registries)
    (report : ComprehensiveReport) (now : ℕ) (fails : ℕ → Bool) :
    Registries × List SendAttempt :=
  let payload := crisis_alert_payload report now
  let core := _broadcast_to r.core_clients fails payload
  let bridge := _broadcast_to r.bridge_clients fails payload
  let overlay := _broadcast_to r.overlay_clients fails payload
  (⟨core.2, bridge.2, overlay.2⟩, core.1 ++ bridge.1 ++ overlay.1)

/-- **C8.**  For any report with `requires_emergency = true`, a single
invocation of `_broadcast_crisis_alert` attempts delivery of the one
encoded alert payload to every subscriber of all three registries
before returning, and every attempted delivery carries that identical
payload — regardless of which channel the triggering connection
belonged to (the function has no triggering-connection input at
all). -/
theorem c8_alert_reaches_all_registries (r : Registries)
    (report : ComprehensiveReport) (now : ℕ) (fails : ℕ → Bool) (c : ℕ)
    (hr : report.requires_emergency = true)
    (hc : c ∈ r.core_clients ∨ c ∈ r.bridge_clients ∨
      c ∈ r.overlay_clients) :
    SendAttempt.mk c (crisis_alert_payload report now) ∈
        (_broadcast_crisis_alert r report now fails).2 ∧
      ∀ a ∈ (_broadcast_crisis_alert r report now fails).2,
        a.payload = crisis_alert_payload report now := by
  constructor
  · simp only [_broadcast_crisis_alert, _broadcast_to, List.mem_append,
      List.mem_map]
    rcases hc with hc | hc | hc
    · exact Or.inl (Or.inl ⟨c, hc, rfl⟩)
    · exact Or.inl (Or.inr ⟨c, hc, rfl⟩)
    · exact Or.inr ⟨c, hc, rfl⟩
  · intro a ha
    simp only [_broadcast_crisis_alert, _broadcast_to, List.mem_append,
      List.mem_map] at ha
    rcases ha with (⟨x, _, hx⟩ | ⟨x, _, hx⟩) | ⟨x, _, hx⟩ <;>
      simpa using congrArg SendAttempt.payload hx.symm

/-- A concrete emergency report for the C8 witness. -/
def sample_emergency_report : ComprehensiveReport :=
  { level := .CRITICAL, severity := 4, z_score := 1/2
    z_threshold_breach := true, keyword_matches := [], trend := .unknown
    requires_intervention := true, requires_emergency := true }

/-- Witness for C8: with one client per plane and client 2 connected
only to the bridge plane, the alert attempt for client 2 is made with
the same payload as everyone else's. -/
theorem c8_witness :
    sample_emergency_report.requires_emergency = true ∧
      (2 ∈ [1] ∨ 2 ∈ [2] ∨ 2 ∈ [3]) ∧
      SendAttempt.mk 2 (crisis_alert_payload sample_emergency_report 0) ∈
        (_broadcast_crisis_alert ⟨[1], [2], [3]⟩ sample_emergency_report 0
            (fun _ => false)).2 := by
  have hc : (2:ℕ) ∈ [1] ∨ (2:ℕ) ∈ [2] ∨ (2:ℕ) ∈ [3] := by simp
  exact ⟨rfl, hc,
    (c8_alert_reaches_all_registries ⟨[1], [2], [3]⟩
      sample_emergency_report 0 (fun _ => false) 2 rfl hc).1⟩



